import Mathlib

/-!
Shallow embedding of the `vcell` crate (`src/lib.rs`): volatile cells with an
optional, process-wide memory-interface backend.

The Rust code has three container types:

* `VolatileCell<T>` — generic; its `get`/`set` are plain volatile accesses on
  the cell's own storage and never look at the backend registry;
* `VolatileCell32` / `VolatileCell8` — fixed-width; their `get`/`set` first
  consult the registry (`memory_interface()`) and, when a backend is
  installed, call the backend's `read32`/`write32` (resp. `read8`/`write8`)
  with the cell's storage address truncated to 32 bits
  (`self.value.get() as usize as u32`); otherwise they fall back to the same
  direct volatile access.

The embedding models a cell as its stable storage address plus the value held
in its own storage; the process-wide `INTERFACE` slot becomes the `interface`
field of a `World`, holding `none` or an installed backend.  A backend is a
record of four operations acting on an abstract backend state `σ`.  Each
operation additionally appends an instrumentation `Event` to a trace recording
which access (backend call or direct volatile access) the source code performs,
so that "calls exactly this backend operation with this address" becomes a
statement about the trace.
-/

namespace VCell

/-- Instrumentation record of one memory access performed by a cell
operation: a backend call (with the 32-bit address handed over, and the value
for writes) or a direct volatile access on the cell's own storage (identified
by the storage address). -/
inductive Event where
  | read8 (addr : Nat)
  | write8 (addr : Nat) (value : Nat)
  | read32 (addr : Nat)
  | write32 (addr : Nat) (value : Nat)
  | directRead (addr : Nat)
  | directWrite (addr : Nat)
  deriving DecidableEq

/-- A memory-access backend (`InfallibleMemoryInterface`): four infallible
operations over an abstract backend state `σ`.  Reads return a value and the
next backend state; writes return the next backend state. -/
structure Backend (σ : Type) where
  read8 : Nat → σ → Nat × σ
  write8 : Nat → Nat → σ → σ
  read32 : Nat → σ → Nat × σ
  write32 : Nat → Nat → σ → σ

/-- The process-wide state the cells interact with: the `INTERFACE` registry
slot (`none` = null pointer, nothing installed), the state of the installed
backend, and the instrumentation trace of accesses performed so far. -/
structure World (σ : Type) where
  interface : Option (Backend σ)
  backendState : σ
  trace : List Event

/-- `memory_interface()`: loads the `INTERFACE` slot; returns `none` when the
pointer is null, otherwise the installed backend. -/
def memory_interface {σ : Type} (w : World σ) : Option (Backend σ) :=
  w.interface

/-- `set_memory_interface`: stores the given backend into the `INTERFACE`
slot, unconditionally replacing whatever was there. -/
def set_memory_interface {σ : Type} (b : Backend σ) (w : World σ) : World σ :=
  { w with interface := some b }

/-- The world at process start: `INTERFACE` is the null pointer (`none`),
no accesses have happened. -/
def initialWorld {σ : Type} (s : σ) : World σ :=
  { interface := none, backendState := s, trace := [] }

/-- `VolatileCell<T>`: one instance of `T` in the cell's own storage, at a
stable storage address (the address of the `UnsafeCell`). -/
structure VolatileCell (T : Type) where
  address : Nat
  value : T

/-- `VolatileCell::new`: constructs a cell holding `value` (the address is the
location the caller places the cell at). -/
def VolatileCell.new {T : Type} (address : Nat) (value : T) : VolatileCell T :=
  ⟨address, value⟩

/-- `VolatileCell::get`: `ptr::read_volatile(self.value.get())` — a single
volatile read of the cell's own storage; the backend registry is not
consulted. -/
def VolatileCell.get {T : Type} {σ : Type} (c : VolatileCell T) (w : World σ) :
    T × World σ :=
  (c.value, { w with trace := w.trace ++ [Event.directRead c.address] })

/-- `VolatileCell::set`: `ptr::write_volatile(self.value.get(), value)` — a
single volatile write into the cell's own storage; the backend registry is not
consulted. -/
def VolatileCell.set {T : Type} {σ : Type} (c : VolatileCell T) (v : T)
    (w : World σ) : VolatileCell T × World σ :=
  ({ c with value := v }, { w with trace := w.trace ++ [Event.directWrite c.address] })

/-- `VolatileCell::as_ptr`: returns the raw pointer to the cell's own storage,
i.e. its storage address.  Takes only the cell — it cannot read or change the
registry. -/
def VolatileCell.as_ptr {T : Type} (c : VolatileCell T) : Nat :=
  c.address

/-- `VolatileCell32`: a cell holding one `u32` in its own storage. -/
structure VolatileCell32 where
  address : Nat
  value : Nat

/-- `VolatileCell32::new`: constructs a 32-bit cell holding `value`. -/
def VolatileCell32.new (address : Nat) (value : Nat) : VolatileCell32 :=
  ⟨address, value⟩

/-- `VolatileCell32::get`: consults `memory_interface()`; when a backend is
installed, computes `self.value.get() as usize as u32` (the storage address
mod 2^32) and returns `mem.read32(address)`; otherwise performs a volatile read
of the cell's own storage. -/
def VolatileCell32.get {σ : Type} (c : VolatileCell32) (w : World σ) :
    Nat × World σ :=
  match memory_interface w with
  | some mem =>
      let address := c.address % 2 ^ 32
      let r := mem.read32 address w.backendState
      (r.1, { w with backendState := r.2, trace := w.trace ++ [Event.read32 address] })
  | none =>
      (c.value, { w with trace := w.trace ++ [Event.directRead c.address] })

/-- `VolatileCell32::set`: consults `memory_interface()`; when a backend is
installed, computes the address exactly as `get` does and calls
`mem.write32(address, value)`, leaving the cell's own storage untouched;
otherwise performs a volatile write into the cell's own storage. -/
def VolatileCell32.set {σ : Type} (c : VolatileCell32) (v : Nat) (w : World σ) :
    VolatileCell32 × World σ :=
  match memory_interface w with
  | some mem =>
      let address := c.address % 2 ^ 32
      (c, { w with backendState := mem.write32 address v w.backendState,
                   trace := w.trace ++ [Event.write32 address v] })
  | none =>
      ({ c with value := v }, { w with trace := w.trace ++ [Event.directWrite c.address] })

/-- `VolatileCell32::as_ptr`: the raw pointer to the cell's own storage. -/
def VolatileCell32.as_ptr (c : VolatileCell32) : Nat :=
  c.address

/-- `VolatileCell8`: a cell holding one `u8` in its own storage. -/
structure VolatileCell8 where
  address : Nat
  value : Nat

/-- `VolatileCell8::new`: constructs an 8-bit cell holding `value`. -/
def VolatileCell8.new (address : Nat) (value : Nat) : VolatileCell8 :=
  ⟨address, value⟩

/-- `VolatileCell8::get`: consults `memory_interface()`; when a backend is
installed, computes the storage address mod 2^32 and returns
`mem.read8(address)`; otherwise performs a volatile read of the cell's own
storage. -/
def VolatileCell8.get {σ : Type} (c : VolatileCell8) (w : World σ) :
    Nat × World σ :=
  match memory_interface w with
  | some mem =>
      let address := c.address % 2 ^ 32
      let r := mem.read8 address w.backendState
      (r.1, { w with backendState := r.2, trace := w.trace ++ [Event.read8 address] })
  | none =>
      (c.value, { w with trace := w.trace ++ [Event.directRead c.address] })

/-- `VolatileCell8::set`: consults `memory_interface()`; when a backend is
installed, computes the address exactly as `get` does and calls
`mem.write8(address, value)`, leaving the cell's own storage untouched;
otherwise performs a volatile write into the cell's own storage. -/
def VolatileCell8.set {σ : Type} (c : VolatileCell8) (v : Nat) (w : World σ) :
    VolatileCell8 × World σ :=
  match memory_interface w with
  | some mem =>
      let address := c.address % 2 ^ 32
      (c, { w with backendState := mem.write8 address v w.backendState,
                   trace := w.trace ++ [Event.write8 address v] })
  | none =>
      ({ c with value := v }, { w with trace := w.trace ++ [Event.directWrite c.address] })

/-- `VolatileCell8::as_ptr`: the raw pointer to the cell's own storage. -/
def VolatileCell8.as_ptr (c : VolatileCell8) : Nat :=
  c.address

/-- A concrete backend over a flat address-indexed memory, used to instantiate
theorems at concrete inputs: reads return the word stored at the address,
writes update it pointwise. -/
def natBackend : Backend (Nat → Nat) where
  read8 a s := (s a, s)
  write8 a v s := fun x => if x = a then v else s x
  read32 a s := (s a, s)
  write32 a v s := fun x => if x = a then v else s x

/-- A concrete world with `natBackend` installed and every backend-memory
location holding 5. -/
def demoW : World (Nat → Nat) :=
  { interface := some natBackend, backendState := fun _ => 5, trace := [] }

/-- A concrete world with no backend ever installed. -/
def demoW0 : World (Nat → Nat) :=
  initialWorld (fun _ => 5)

/-- C3: when no backend is installed, `get`/`set` on every cell operate purely
on the cell's own storage with plain sequential read-after-write semantics:
`get` returns the stored value and `set v` followed by `get` returns `v`; in
particular a 32-bit cell constructed with `0xDEADBEEF` returns `0xDEADBEEF`
from `get()`, and after `set(0x1)` a subsequent `get()` returns `0x1`. -/
theorem noBackendFallback {σ : Type} (w : World σ)
    (h : memory_interface w = none) :
    (∀ (T : Type) (c : VolatileCell T) (v : T),
        (c.get w).1 = c.value ∧
        (((c.set v w).1).get (c.set v w).2).1 = v) ∧
    (∀ (c : VolatileCell32) (v : Nat),
        (c.get w).1 = c.value ∧
        (((c.set v w).1).get (c.set v w).2).1 = v) ∧
    (∀ (c : VolatileCell8) (v : Nat),
        (c.get w).1 = c.value ∧
        (((c.set v w).1).get (c.set v w).2).1 = v) ∧
    (∀ a : Nat,
        ((VolatileCell32.new a 0xDEADBEEF).get w).1 = 0xDEADBEEF ∧
        ((((VolatileCell32.new a 0xDEADBEEF).set 0x1 w).1).get
            ((VolatileCell32.new a 0xDEADBEEF).set 0x1 w).2).1 = 0x1) := by
  simp only [memory_interface] at h
  refine ⟨fun T c v => ⟨rfl, rfl⟩, fun c v => ?_, fun c v => ?_, fun a => ?_⟩ <;>
    simp [VolatileCell32.get, VolatileCell32.set, VolatileCell8.get, VolatileCell8.set,
      VolatileCell32.new, memory_interface, h]

/-- C3 witness: in the concrete never-installed world `demoW0`, the
`0xDEADBEEF` scenario holds at address 4096. -/
theorem noBackendFallback_witness :
    ((VolatileCell32.new 4096 0xDEADBEEF).get demoW0).1 = 0xDEADBEEF ∧
    ((((VolatileCell32.new 4096 0xDEADBEEF).set 0x1 demoW0).1).get
        ((VolatileCell32.new 4096 0xDEADBEEF).set 0x1 demoW0).2).1 = 0x1 :=
  (noBackendFallback demoW0 rfl).2.2.2 4096

/-- C7: `set_memory_interface` is total and unconditionally replaces the
registry slot (touching nothing else); after an install — also after a second
install over a first — `memory_interface` returns the most recently installed
backend, and in the initial world it returns `none`; a cell access performed
after an install observes the newly installed backend. -/
theorem installReplaces :
    (∀ (σ : Type) (b : Backend σ) (w : World σ),
        memory_interface (set_memory_interface b w) = some b ∧
        (set_memory_interface b w).backendState = w.backendState ∧
        (set_memory_interface b w).trace = w.trace) ∧
    (∀ (σ : Type) (b1 b2 : Backend σ) (w : World σ),
        memory_interface (set_memory_interface b2 (set_memory_interface b1 w)) = some b2) ∧
    (∀ (σ : Type) (s : σ), memory_interface (initialWorld s) = none) ∧
    (∀ (σ : Type) (b : Backend σ) (w : World σ) (c : VolatileCell32),
        (c.get (set_memory_interface b w)).1 =
          (b.read32 (c.address % 2 ^ 32) w.backendState).1) ∧
    (∀ (σ : Type) (b : Backend σ) (w : World σ) (c : VolatileCell8),
        (c.get (set_memory_interface b w)).1 =
          (b.read8 (c.address % 2 ^ 32) w.backendState).1) :=
  ⟨fun _ _ _ => ⟨rfl, rfl, rfl⟩, fun _ _ _ _ => rfl, fun _ _ => rfl,
   fun _ _ _ _ => rfl, fun _ _ _ _ => rfl⟩

/-- C8: for every cell type, `as_ptr` returns the address of the cell's own
storage.  In the embedding (as in the source, where `as_ptr` takes only
`&self`) it takes no world argument at all, so it can neither consult nor
modify the backend registry, and its result is the same in every registry
state. -/
theorem asPtrStorageAddress :
    (∀ (T : Type) (c : VolatileCell T), c.as_ptr = c.address) ∧
    (∀ c : VolatileCell32, c.as_ptr = c.address) ∧
    (∀ c : VolatileCell8, c.as_ptr = c.address) :=
  ⟨fun _ _ => rfl, fun _ => rfl, fun _ => rfl⟩

/-- C10: no cell operation modifies the backend registry: `get` and `set` on
every cell type leave the installed-backend slot exactly as it was (`new` and
`as_ptr` take no world at all, so they cannot touch it); the slot starts out
as `none` in the initial world, and only `set_memory_interface` changes it. -/
theorem cellOpsPreserveRegistry :
    (∀ (σ T : Type) (c : VolatileCell T) (v : T) (w : World σ),
        (c.get w).2.interface = w.interface ∧
        (c.set v w).2.interface = w.interface) ∧
    (∀ (σ : Type) (c : VolatileCell32) (v : Nat) (w : World σ),
        (c.get w).2.interface = w.interface ∧
        (c.set v w).2.interface = w.interface) ∧
    (∀ (σ : Type) (c : VolatileCell8) (v : Nat) (w : World σ),
        (c.get w).2.interface = w.interface ∧
        (c.set v w).2.interface = w.interface) ∧
    (∀ (σ : Type) (s : σ), (initialWorld s : World σ).interface = none) ∧
    (∀ (σ : Type) (b : Backend σ) (w : World σ),
        (set_memory_interface b w).interface = some b) := by
  refine ⟨fun σ T c v w => ⟨rfl, rfl⟩, fun σ c v w => ?_, fun σ c v w => ?_,
    fun σ s => rfl, fun σ b w => rfl⟩ <;>
    cases hw : w.interface <;>
      simp [VolatileCell32.get, VolatileCell32.set, VolatileCell8.get, VolatileCell8.set,
        memory_interface, hw]

/-- C9: for every backed `get`/`set` on an 8-bit or 32-bit cell, the numeric
address handed to the backend (recorded in the access event) equals the cell's
storage address reduced modulo 2^32, mirroring the source's
`self.value.get() as usize as u32` truncation. -/
theorem backendAddressTruncated {σ : Type} (b : Backend σ) (w : World σ)
    (h : memory_interface w = some b) :
    (∀ (c : VolatileCell32) (v : Nat),
        (c.get w).2.trace = w.trace ++ [Event.read32 (c.address % 2 ^ 32)] ∧
        (c.set v w).2.trace = w.trace ++ [Event.write32 (c.address % 2 ^ 32) v]) ∧
    (∀ (c : VolatileCell8) (v : Nat),
        (c.get w).2.trace = w.trace ++ [Event.read8 (c.address % 2 ^ 32)] ∧
        (c.set v w).2.trace = w.trace ++ [Event.write8 (c.address % 2 ^ 32) v]) := by
  simp only [memory_interface] at h
  constructor <;> intro c v <;>
    simp [VolatileCell32.get, VolatileCell32.set, VolatileCell8.get, VolatileCell8.set,
      memory_interface, h]

/-- C9 witness: in `demoW` a 32-bit cell whose storage sits at address
`2 ^ 32 + 12` hands the backend the truncated address, which is `12`. -/
theorem backendAddressTruncated_witness :
    ((VolatileCell32.new (2 ^ 32 + 12) 7).get demoW).2.trace =
      demoW.trace ++ [Event.read32 ((2 ^ 32 + 12) % 2 ^ 32)] ∧
    (2 ^ 32 + 12) % 2 ^ 32 = 12 :=
  ⟨((backendAddressTruncated natBackend demoW rfl).1
      (VolatileCell32.new (2 ^ 32 + 12) 7) 0).1,
   by decide⟩

/-- C5: when a backend is installed, a `get`/`set` on an 8-bit cell is exactly
a `read8`/`write8` call on the backend, and a `get`/`set` on a 32-bit cell is
exactly a `read32`/`write32` call, each at the cell's own (truncated) storage
address: the returned value, the backend state and the single recorded access
event are all those of that one backend operation. -/
theorem widthCorrectness {σ : Type} (b : Backend σ) (w : World σ)
    (h : memory_interface w = some b) :
    (∀ c : VolatileCell8,
        c.get w = ((b.read8 (c.address % 2 ^ 32) w.backendState).1,
          { w with backendState := (b.read8 (c.address % 2 ^ 32) w.backendState).2,
                   trace := w.trace ++ [Event.read8 (c.address % 2 ^ 32)] })) ∧
    (∀ (c : VolatileCell8) (v : Nat),
        c.set v w = (c,
          { w with backendState := b.write8 (c.address % 2 ^ 32) v w.backendState,
                   trace := w.trace ++ [Event.write8 (c.address % 2 ^ 32) v] })) ∧
    (∀ c : VolatileCell32,
        c.get w = ((b.read32 (c.address % 2 ^ 32) w.backendState).1,
          { w with backendState := (b.read32 (c.address % 2 ^ 32) w.backendState).2,
                   trace := w.trace ++ [Event.read32 (c.address % 2 ^ 32)] })) ∧
    (∀ (c : VolatileCell32) (v : Nat),
        c.set v w = (c,
          { w with backendState := b.write32 (c.address % 2 ^ 32) v w.backendState,
                   trace := w.trace ++ [Event.write32 (c.address % 2 ^ 32) v] })) := by
  simp only [memory_interface] at h
  refine ⟨fun c => ?_, fun c v => ?_, fun c => ?_, fun c v => ?_⟩ <;>
    simp [VolatileCell8.get, VolatileCell8.set, VolatileCell32.get, VolatileCell32.set,
      memory_interface, h]

/-- C5 witness: in `demoW`, a concrete 8-bit cell's `set` is exactly one
`write8` call on `natBackend` at the cell's truncated address. -/
theorem widthCorrectness_witness :
    (VolatileCell8.new 10 3).set 77 demoW =
      (VolatileCell8.new 10 3,
        { demoW with
            backendState := natBackend.write8 (10 % 2 ^ 32) 77 demoW.backendState,
            trace := demoW.trace ++ [Event.write8 (10 % 2 ^ 32) 77] }) :=
  (widthCorrectness natBackend demoW rfl).2.1 (VolatileCell8.new 10 3) 77

/-- C4: when a backend is installed, `set` on a fixed-width cell performs only
the backend's matching write with (truncated address, value): the cell's own
stored value is returned unchanged and the world changes only by that one
write; and `get` never consults the cell's own stored bytes — two cells at the
same address with different stored values produce identical backed `get`
results. -/
theorem backedSetFrame {σ : Type} (b : Backend σ) (w : World σ)
    (h : memory_interface w = some b) :
    (∀ (c : VolatileCell32) (v : Nat),
        (c.set v w).1 = c ∧
        (c.set v w).2 =
          { w with backendState := b.write32 (c.address % 2 ^ 32) v w.backendState,
                   trace := w.trace ++ [Event.write32 (c.address % 2 ^ 32) v] }) ∧
    (∀ c c' : VolatileCell32, c.address = c'.address → c.get w = c'.get w) ∧
    (∀ (c : VolatileCell8) (v : Nat),
        (c.set v w).1 = c ∧
        (c.set v w).2 =
          { w with backendState := b.write8 (c.address % 2 ^ 32) v w.backendState,
                   trace := w.trace ++ [Event.write8 (c.address % 2 ^ 32) v] }) ∧
    (∀ c c' : VolatileCell8, c.address = c'.address → c.get w = c'.get w) := by
  simp only [memory_interface] at h
  refine ⟨fun c v => ?_, fun c c' hc => ?_, fun c v => ?_, fun c c' hc => ?_⟩
  all_goals first
  | simp [VolatileCell32.set, VolatileCell8.set, memory_interface, h]
  | simp [VolatileCell32.get, VolatileCell8.get, memory_interface, h, hc]

/-- C4 witness: in `demoW` a backed `set(0x1)` leaves the cell's stored value
`7` in place, and two 32-bit cells at address 4096 storing `7` and `99` give
the same backed `get`. -/
theorem backedSetFrame_witness :
    ((VolatileCell32.new 4096 7).set 0x1 demoW).1 = VolatileCell32.new 4096 7 ∧
    (VolatileCell32.new 4096 7).get demoW = (VolatileCell32.new 4096 99).get demoW :=
  ⟨((backedSetFrame natBackend demoW rfl).1 (VolatileCell32.new 4096 7) 0x1).1,
   (backedSetFrame natBackend demoW rfl).2.1
     (VolatileCell32.new 4096 7) (VolatileCell32.new 4096 99) rfl⟩

/-- C2: for every value `v`, `set(v); get()` on the same cell returns `v`:
unconditionally for the generic cell (whose accesses are always direct), and
for the fixed-width cells both when no backend is installed and when an
installed backend satisfies read-after-write at the same address. -/
theorem setGetRoundTrip :
    (∀ (σ T : Type) (c : VolatileCell T) (v : T) (w : World σ),
        (((c.set v w).1).get (c.set v w).2).1 = v) ∧
    (∀ (σ : Type) (c : VolatileCell32) (v : Nat) (w : World σ),
        memory_interface w = none →
        (((c.set v w).1).get (c.set v w).2).1 = v) ∧
    (∀ (σ : Type) (b : Backend σ) (c : VolatileCell32) (v : Nat) (w : World σ),
        memory_interface w = some b →
        (∀ (a x : Nat) (s : σ), (b.read32 a (b.write32 a x s)).1 = x) →
        (((c.set v w).1).get (c.set v w).2).1 = v) ∧
    (∀ (σ : Type) (c : VolatileCell8) (v : Nat) (w : World σ),
        memory_interface w = none →
        (((c.set v w).1).get (c.set v w).2).1 = v) ∧
    (∀ (σ : Type) (b : Backend σ) (c : VolatileCell8) (v : Nat) (w : World σ),
        memory_interface w = some b →
        (∀ (a x : Nat) (s : σ), (b.read8 a (b.write8 a x s)).1 = x) →
        (((c.set v w).1).get (c.set v w).2).1 = v) := by
  refine ⟨fun _ _ _ _ _ => rfl, fun σ c v w h => ?_, fun σ b c v w h hrw => ?_,
    fun σ c v w h => ?_, fun σ b c v w h hrw => ?_⟩ <;>
    simp only [memory_interface] at h
  all_goals simp [VolatileCell32.get, VolatileCell32.set, VolatileCell8.get,
    VolatileCell8.set, memory_interface, h]
  all_goals exact hrw _ _ _

/-- C2 witness: concrete round trips — a 32-bit cell in the never-installed
world `demoW0`, and 32-bit and 8-bit cells in the backed world `demoW`, whose
`natBackend` satisfies read-after-write. -/
theorem setGetRoundTrip_witness :
    ((((VolatileCell32.new 4096 7).set 0x1 demoW0).1).get
        ((VolatileCell32.new 4096 7).set 0x1 demoW0).2).1 = 0x1 ∧
    ((((VolatileCell32.new 4096 7).set 2 demoW).1).get
        ((VolatileCell32.new 4096 7).set 2 demoW).2).1 = 2 ∧
    ((((VolatileCell8.new 10 3).set 9 demoW).1).get
        ((VolatileCell8.new 10 3).set 9 demoW).2).1 = 9 :=
  ⟨setGetRoundTrip.2.1 (Nat → Nat) (VolatileCell32.new 4096 7) 0x1 demoW0 rfl,
   setGetRoundTrip.2.2.1 (Nat → Nat) natBackend (VolatileCell32.new 4096 7) 2 demoW rfl
     (by simp [natBackend]),
   setGetRoundTrip.2.2.2.2 (Nat → Nat) natBackend (VolatileCell8.new 10 3) 9 demoW rfl
     (by simp [natBackend])⟩

/-- C1 counterexample: the claim predicts that with a backend installed the
generic cell's `get` becomes a backend read.  In `demoW` (backend installed,
backend memory all 5) the generic cell at address 4096 storing 7 returns its
own stored value 7 via a direct read — not the backend's 5 — so the claim is
false for the generic cell. -/
theorem registryRouting_counterexample :
    memory_interface demoW = some natBackend ∧
    ((VolatileCell.new 4096 (7 : Nat)).get demoW).1 = 7 ∧
    ((VolatileCell.new 4096 (7 : Nat)).get demoW).2.trace = [Event.directRead 4096] ∧
    (natBackend.read32 (4096 % 2 ^ 32) demoW.backendState).1 = 5 ∧
    (7 : Nat) ≠ 5 :=
  ⟨rfl, rfl, rfl, rfl, by decide⟩

/-- C1 amended: only the fixed-width cells consult the backend registry on
`get`/`set` — routing to the backend when one is installed and falling through
to a direct volatile access otherwise; the generic cell's `get`/`set` never
consult the registry and always perform the direct volatile access on the
cell's own storage, whatever the registry holds. -/
theorem registryRouting :
    (∀ (σ T : Type) (c : VolatileCell T) (v : T) (w : World σ)
        (o : Option (Backend σ)),
        (c.get { w with interface := o }).1 = c.value ∧
        (c.get { w with interface := o }).2.trace
          = w.trace ++ [Event.directRead c.address] ∧
        (c.get { w with interface := o }).2.backendState = w.backendState ∧
        ((c.set v { w with interface := o }).1).value = v ∧
        (c.set v { w with interface := o }).2.trace
          = w.trace ++ [Event.directWrite c.address] ∧
        (c.set v { w with interface := o }).2.backendState = w.backendState) ∧
    (∀ (σ : Type) (b : Backend σ) (w : World σ), memory_interface w = some b →
        ∀ (c : VolatileCell32) (v : Nat),
          (c.get w).1 = (b.read32 (c.address % 2 ^ 32) w.backendState).1 ∧
          (c.set v w).2.backendState
            = b.write32 (c.address % 2 ^ 32) v w.backendState ∧
          (∀ c8 : VolatileCell8,
            (c8.get w).1 = (b.read8 (c8.address % 2 ^ 32) w.backendState).1) ∧
          (∀ (c8 : VolatileCell8) (v8 : Nat),
            (c8.set v8 w).2.backendState
              = b.write8 (c8.address % 2 ^ 32) v8 w.backendState)) ∧
    (∀ (σ : Type) (w : World σ), memory_interface w = none →
        ∀ (c : VolatileCell32) (v : Nat),
          (c.get w).1 = c.value ∧
          (c.get w).2.trace = w.trace ++ [Event.directRead c.address] ∧
          ((c.set v w).1).value = v ∧
          (c.set v w).2.trace = w.trace ++ [Event.directWrite c.address] ∧
          (∀ c8 : VolatileCell8,
            (c8.get w).1 = c8.value ∧
            (c8.get w).2.trace = w.trace ++ [Event.directRead c8.address]) ∧
          (∀ (c8 : VolatileCell8) (v8 : Nat),
            ((c8.set v8 w).1).value = v8 ∧
            (c8.set v8 w).2.trace = w.trace ++ [Event.directWrite c8.address])) := by
  refine ⟨fun σ T c v w o => ⟨rfl, rfl, rfl, rfl, rfl, rfl⟩,
    fun σ b w h c v => ?_, fun σ w h c v => ?_⟩ <;>
    simp only [memory_interface] at h <;>
    simp [VolatileCell32.get, VolatileCell32.set, VolatileCell8.get, VolatileCell8.set,
      memory_interface, h]

/-- C1-amended witness: the backed branch at a concrete 32-bit cell in `demoW`
and the direct branch at the same cell in the never-installed `demoW0`. -/
theorem registryRouting_witness :
    ((VolatileCell32.new 4096 7).get demoW).1
      = (natBackend.read32 (4096 % 2 ^ 32) demoW.backendState).1 ∧
    ((VolatileCell32.new 4096 7).get demoW0).1 = 7 :=
  ⟨(registryRouting.2.1 (Nat → Nat) natBackend demoW rfl
      (VolatileCell32.new 4096 7) 0).1,
   (registryRouting.2.2 (Nat → Nat) demoW0 rfl (VolatileCell32.new 4096 7) 0).1⟩

/-- C6 counterexample: in the backed world `demoW` (backend memory all 5) a
dedicated 32-bit cell at address 4096 storing 7 reads 5 through the backend,
while `VolatileCell<u32>` at the same address with the same stored value reads
its own 7 — so the generic cell does not behave identically to the dedicated
one when a backend is installed. -/
theorem genericVsCell32_counterexample :
    memory_interface demoW = some natBackend ∧
    ((VolatileCell32.new 4096 7).get demoW).1 = 5 ∧
    ((VolatileCell.new 4096 (7 : Nat)).get demoW).1 = 7 ∧
    (5 : Nat) ≠ 7 :=
  ⟨rfl, rfl, rfl, by decide⟩

/-- C6 amended: with no backend installed, `VolatileCell<u32>` behaves
identically to `VolatileCell32` on `get` and `set` (same results, same world
effects); once a backend is installed they differ: the dedicated cell routes
through the backend's `read32` while the generic cell still returns its own
stored value directly. -/
theorem genericVsCell32 :
    (∀ (σ : Type) (w : World σ) (a v : Nat), memory_interface w = none →
        ((VolatileCell.new a v : VolatileCell Nat).get w).1
          = ((VolatileCell32.new a v).get w).1 ∧
        ((VolatileCell.new a v : VolatileCell Nat).get w).2
          = ((VolatileCell32.new a v).get w).2 ∧
        (∀ x : Nat,
          (((VolatileCell.new a v : VolatileCell Nat).set x w).1).value
            = (((VolatileCell32.new a v).set x w).1).value ∧
          (((VolatileCell.new a v : VolatileCell Nat).set x w).1).address
            = (((VolatileCell32.new a v).set x w).1).address ∧
          ((VolatileCell.new a v : VolatileCell Nat).set x w).2
            = ((VolatileCell32.new a v).set x w).2)) ∧
    (∀ (σ : Type) (b : Backend σ) (w : World σ) (a v : Nat),
        memory_interface w = some b →
        ((VolatileCell32.new a v).get w).1 = (b.read32 (a % 2 ^ 32) w.backendState).1 ∧
        ((VolatileCell.new a v : VolatileCell Nat).get w).1 = v) := by
  refine ⟨fun σ w a v h => ?_, fun σ b w a v h => ?_⟩ <;>
    simp only [memory_interface] at h <;>
    simp [VolatileCell.get, VolatileCell.set, VolatileCell32.get, VolatileCell32.set,
      VolatileCell.new, VolatileCell32.new, memory_interface, h]

/-- C6-amended witness: concrete instantiation — identical behavior at address
4096 in `demoW0`, divergent `get` results in the backed `demoW`. -/
theorem genericVsCell32_witness :
    ((VolatileCell.new 4096 (7 : Nat) : VolatileCell Nat).get demoW0).1
      = ((VolatileCell32.new 4096 7).get demoW0).1 ∧
    ((VolatileCell32.new 4096 7).get demoW).1
      = (natBackend.read32 (4096 % 2 ^ 32) demoW.backendState).1 :=
  ⟨(genericVsCell32.1 (Nat → Nat) demoW0 4096 7 rfl).1,
   (genericVsCell32.2 (Nat → Nat) natBackend demoW 4096 7 rfl).1⟩

end VCell
